import Mathlib

/-!
Shallow embedding of the agentic conversation orchestration engine of the
Synapse repository (`app/llm/function_tools.py`, `app/llm/GeminiManager.py`,
`app/services/chat_service.py`, `app/db/models/task.py`, `app/db/models/chat.py`),
together with theorems settling the frozen claims about it.

Modelling conventions used throughout:
* UUIDs and datetimes are modelled as `Nat` (only identity and relative order
  are ever used by the code).
* SQL `ILIKE "%q%"` is modelled as case-insensitive substring containment;
  SQL LIKE metacharacters occurring inside the query string are not modelled.
* The SQLAlchemy session is modelled as a pair of task tables: `base` (the
  state at the start of the enclosing transaction) and `cur` (the state with
  all pending/flushed changes applied).  `rollback` restores `base`.
* Python truthiness of optional strings (`not x`) is `none` or the empty
  string; an empty dict is falsy.
* Fallible Python code is modelled with `Except`; an exception is represented
  by its message string, which is all the orchestrator ever inspects.
-/

namespace Synapse

/-- Task status enum (`app/db/models/task.py`, `TaskStatus`). -/
inductive TaskStatus
  | todo
  | in_progress
  | done
  deriving DecidableEq, Repr

/-- The `.value` of a `TaskStatus` member (its lowercase string). -/
def TaskStatus.value : TaskStatus → String
  | .todo => "todo"
  | .in_progress => "in_progress"
  | .done => "done"

/-- A row of the `tasks` table (`app/db/models/task.py`, `Task`).
`created_at` comes from the repository's `TimeStampMixin` (not under `src/`);
modelled from the spec: TaskRecords are ordered most-recently-created first. -/
structure Task where
  task_id : Nat
  conversation_id : Nat
  created_by_user_id : Nat
  title : String
  description : Option String := none
  status : TaskStatus := .todo
  created_at : Nat := 0
  deriving DecidableEq, Repr

/-- The validated action literal of `ManageTaskArgs.action`. -/
inductive TAction
  | create
  | update
  | delete
  | list
  deriving DecidableEq, Repr

/-- Validated tool arguments (`app/llm/function_tools.py`, `ManageTaskArgs`). -/
structure ManageTaskArgs where
  action : TAction
  query : Option String := none
  conversation_id : Option Nat := none
  title : Option String := none
  description : Option String := none
  status : Option TaskStatus := none
  deadline : Option Nat := none
  deriving DecidableEq, Repr

/-- `ToolExecutionError` (`app/llm/function_tools.py`): a user-visible tool
execution error carrying its message. -/
structure ToolExecutionError where
  msg : String
  deriving DecidableEq, Repr

/-- JSON-like values, used for the result dicts the tool layer returns and
for the persisted tool trace contents. -/
inductive JVal
  | s (v : String)
  | b (v : Bool)
  | n (v : Nat)
  | null
  | arr (vs : List JVal)
  | obj (fields : List (String × JVal))

/-- The SQLAlchemy session over the tasks table: `base` is the state at the
start of the enclosing transaction, `cur` the state including pending
(added/flushed) changes.  `rollback` discards pending changes. -/
structure Session where
  base : List Task
  cur : List Task
  deriving DecidableEq, Repr

/-- `session.rollback()`. -/
def Session.rollback (s : Session) : Session :=
  { s with cur := s.base }

/-- Python truthiness of an optional string: `not x` holds for `None` and `""`. -/
def optFalsy : Option String → Bool
  | none => true
  | some s => s.isEmpty

/-- Is `pat` a prefix of `s` (character lists)? -/
def charsStart : List Char → List Char → Bool
  | [], _ => true
  | _ :: _, [] => false
  | a :: as, b :: bs => a == b && charsStart as bs

/-- Does `pat` occur as a contiguous run inside `s` (character lists)? -/
def charsIn (pat : List Char) : List Char → Bool
  | [] => charsStart pat []
  | b :: bs => charsStart pat (b :: bs) || charsIn pat bs

/-- Lower-casing of a string as a character list (`str.lower()` on the
ASCII strings the system handles). -/
def lowerChars (s : String) : List Char :=
  s.toList.map Char.toLower

/-- `str.strip()`: leading and trailing whitespace removed. -/
def pyStrip (s : String) : String :=
  ⟨((s.toList.dropWhile Char.isWhitespace).reverse.dropWhile Char.isWhitespace).reverse⟩

/-- Case-insensitive substring containment: the meaning of
`column.ilike(f"%{query}%")` for a metacharacter-free query. -/
def likeContains (hay pat : String) : Bool :=
  charsIn (lowerChars pat) (lowerChars hay)

/-- Does a task match the free-text query (the `or_` of the two `ilike`
conditions in `_resolve_single_task_by_query` / `list_tasks`)?  A `NULL`
description matches nothing. -/
def taskMatches (query : String) (t : Task) : Bool :=
  likeContains t.title query ||
    (match t.description with
     | some d => likeContains d query
     | none => false)

/-- Stable insertion of a task into a list sorted by `created_at` descending. -/
def insertTaskDesc (t : Task) : List Task → List Task
  | [] => [t]
  | x :: xs =>
    if t.created_at ≤ x.created_at then x :: insertTaskDesc t xs
    else t :: x :: xs

/-- `ORDER BY Task.created_at DESC`. -/
def sortTasksDesc : List Task → List Task
  | [] => []
  | x :: xs => insertTaskDesc x (sortTasksDesc xs)

/-- The result set of the query inside `_resolve_single_task_by_query`:
tasks owned by `user_id` whose title or description contains the query,
most-recently-created first. -/
def matchingTasks (query : String) (user_id : Nat) (tasks : List Task) : List Task :=
  sortTasksDesc (tasks.filter (fun t => t.created_by_user_id == user_id && taskMatches query t))

/-- The number of owned tasks matching the query (order-independent). -/
def matchCount (query : String) (user_id : Nat) (tasks : List Task) : Nat :=
  (tasks.filter (fun t => t.created_by_user_id == user_id && taskMatches query t)).length

/-- `_resolve_single_task_by_query` (`app/llm/function_tools.py`): raises
`ToolExecutionError` on zero or multiple matches, else returns the match. -/
def _resolve_single_task_by_query (query : String) (user_id : Nat) (tasks : List Task) :
    Except ToolExecutionError Task :=
  match matchingTasks query user_id tasks with
  | [] => .error ⟨"No matching task found"⟩
  | [t] => .ok t
  | _ :: _ :: _ => .error ⟨"Multiple matching tasks found"⟩

/-- `create_task` (`app/llm/function_tools.py`).  `newId` models `uuid4()`,
`now` the row's creation timestamp.  Returns the result dict and the new
pending table state. -/
def create_task (args : ManageTaskArgs) (user_id newId now : Nat) (cur : List Task) :
    Except ToolExecutionError (JVal × List Task) :=
  if args.conversation_id.isNone then .error ⟨"conversation id is required"⟩
  else if optFalsy args.title then .error ⟨"title is required"⟩
  else
    let t : Task :=
      { task_id := newId
        conversation_id := args.conversation_id.getD 0
        title := args.title.getD ""
        description := args.description
        status := args.status.getD .todo
        created_by_user_id := user_id
        created_at := now }
    .ok (.obj [("title", .s t.title), ("status", .s t.status.value)], cur ++ [t])

/-- Does `any([args.status, args.title, args.description])` hold
(`update_task`'s updatable-field check, Python truthiness)? -/
def hasUpdatableField (args : ManageTaskArgs) : Bool :=
  args.status.isSome || !(optFalsy args.title) || !(optFalsy args.description)

/-- The field assignments of `update_task` applied to the resolved task,
with the `updated_fields` list, in source order (status, title, description). -/
def applyUpdates (args : ManageTaskArgs) (t : Task) : Task × List String :=
  let p1 : Task × List String :=
    match args.status with
    | some st => ({ t with status := st }, ["status"])
    | none => (t, [])
  let p2 : Task × List String :=
    match args.title with
    | some ttl =>
      if ttl.isEmpty then p1 else ({ p1.1 with title := ttl }, p1.2 ++ ["title"])
    | none => p1
  match args.description with
  | some d =>
    if d.isEmpty then p2 else ({ p2.1 with description := some d }, p2.2 ++ ["description"])
  | none => p2

/-- ORM identity update: replace the row with the resolved task's primary key. -/
def replaceTask (cur : List Task) (t' : Task) : List Task :=
  cur.map (fun t => if t.task_id == t'.task_id then t' else t)

/-- `update_task` (`app/llm/function_tools.py`). -/
def update_task (args : ManageTaskArgs) (user_id : Nat) (cur : List Task) :
    Except ToolExecutionError (JVal × List Task) :=
  if optFalsy args.query then .error ⟨"query is required"⟩
  else
    match _resolve_single_task_by_query (args.query.getD "") user_id cur with
    | .error e => .error e
    | .ok task =>
      if !(hasUpdatableField args) then .error ⟨"No fields provided to update"⟩
      else
        let r := applyUpdates args task
        .ok (.obj [("updated", .b true),
                   ("updated_fields", .arr (r.2.map .s)),
                   ("status", .s r.1.status.value)],
             replaceTask cur r.1)

/-- `delete_task` (`app/llm/function_tools.py`).  `session.delete` removes the
row with the resolved primary key. -/
def delete_task (args : ManageTaskArgs) (user_id : Nat) (cur : List Task) :
    Except ToolExecutionError (JVal × List Task) :=
  if optFalsy args.query then .error ⟨"query is required to identify the task to delete"⟩
  else
    match _resolve_single_task_by_query (args.query.getD "") user_id cur with
    | .error e => .error e
    | .ok task =>
      .ok (.obj [("action", .s "delete"), ("deleted", .b true),
                 ("task", .obj [("title", .s task.title), ("status", .s task.status.value)])],
           cur.filter (fun t => t.task_id != task.task_id))

/-- The result set of `list_tasks`'s query: owner filter, then the optional
status and keyword filters (applied only when truthy), newest first. -/
def list_selection (args : ManageTaskArgs) (user_id : Nat) (cur : List Task) : List Task :=
  let s1 := cur.filter (fun t => t.created_by_user_id == user_id)
  let s2 :=
    match args.status with
    | some st => s1.filter (fun t => t.status == st)
    | none => s1
  let s3 :=
    match args.query with
    | some q => if q.isEmpty then s2 else s2.filter (taskMatches q)
    | none => s2
  sortTasksDesc s3

/-- `list_tasks` (`app/llm/function_tools.py`).  `created_at.isoformat()` is
modelled as the numeric timestamp. -/
def list_tasks (args : ManageTaskArgs) (user_id : Nat) (cur : List Task) :
    Except ToolExecutionError (JVal × List Task) :=
  let tasks := list_selection args user_id cur
  .ok (.obj
        [("action", .s "list"),
         ("filter_applied", .obj
            [("status", match args.status with | some st => .s st.value | none => .null),
             ("query", match args.query with | some q => .s q | none => .null)]),
         ("count", .n tasks.length),
         ("tasks", .arr (tasks.map (fun t =>
            .obj [("title", .s t.title), ("status", .s t.status.value),
                  ("created_at", .n t.created_at)])))],
       cur)

/-- The action dispatch inside `manage_task`.  The trailing
`Unsupported action` raise of the source is unreachable here because the
validated action literal is closed. -/
def dispatchAction (args : ManageTaskArgs) (user_id newId now : Nat) (cur : List Task) :
    Except ToolExecutionError (JVal × List Task) :=
  match args.action with
  | .create => create_task args user_id newId now cur
  | .update => update_task args user_id cur
  | .delete => delete_task args user_id cur
  | .list => list_tasks args user_id cur

/-- `manage_task` (`app/llm/function_tools.py`): dispatches by action; on
`ToolExecutionError` rolls the session back and re-raises. -/
def manage_task (args : ManageTaskArgs) (user_id newId now : Nat) (sess : Session) :
    Except ToolExecutionError JVal × Session :=
  match dispatchAction args user_id newId now sess.cur with
  | .ok (v, cur') => (.ok v, { sess with cur := cur' })
  | .error e => (.error e, sess.rollback)

/-- The raw argument map a tool call carries, as the provider sends it
(the fields `ManageTaskArgs` validates; everything still optional strings). -/
structure RawArgs where
  action : Option String := none
  query : Option String := none
  title : Option String := none
  description : Option String := none
  status : Option String := none
  deadline : Option Nat := none
  deriving DecidableEq, Repr

/-- A tool-call request part (`FunctionCall`): name plus raw argument map. -/
structure RawCall where
  name : String
  args : RawArgs
  deriving DecidableEq, Repr

/-- A tool-response part (`FunctionResponse`): name plus result payload. -/
structure RawResp where
  name : String
  content : JVal

/-- Parse of the `action` literal by the `ManageTaskArgs` pydantic model. -/
def parseAction : String → Option TAction
  | "create" => some .create
  | "update" => some .update
  | "delete" => some .delete
  | "list" => some .list
  | _ => none

/-- Parse of the `status` literal by the `ManageTaskArgs` pydantic model. -/
def parseStatus : String → Option TaskStatus
  | "todo" => some .todo
  | "in_progress" => some .in_progress
  | "done" => some .done
  | _ => none

/-- Validation of the raw argument map (after the conversation id has been
injected) against `ManageTaskArgs`; `none` models a pydantic
`ValidationError` (missing/invalid `action`, invalid `status`). -/
def validateManageTaskArgs (raw : RawArgs) (conversation_id : Nat) :
    Option ManageTaskArgs := do
  let a ← raw.action
  let act ← parseAction a
  let st ←
    match raw.status with
    | none => some none
    | some s => (parseStatus s).map some
  some { action := act, query := raw.query, conversation_id := some conversation_id,
         title := raw.title, description := raw.description, status := st,
         deadline := raw.deadline }

/-- `GeminiManager._execute_task_tool`: maps an SDK call to the task logic.
Unknown tool names yield a structured error without touching the session;
a `ValidationError` or `ToolExecutionError` is converted into a structured
error result after a rollback.  The generic `except Exception` branch of the
source is unreachable in this pure model.  The pydantic error detail text is
abstracted to a fixed token. -/
def _execute_task_tool (call : RawCall) (user_id conversation_id newId now : Nat)
    (sess : Session) : JVal × Session :=
  if call.name != "task.manage" then
    (.obj [("error", .s ("unknown tool " ++ call.name))], sess)
  else
    match validateManageTaskArgs call.args conversation_id with
    | none =>
      (.obj [("error", .s "Parameter validation failed"),
             ("details", .s "ValidationError")], sess.rollback)
    | some args =>
      match manage_task args user_id newId now sess with
      | (.ok v, sess') => (v, sess')
      | (.error e, sess') => (.obj [("error", .s e.msg)], sess'.rollback)

/-- The per-turn tool trace a stored `ChatMessage` carries
(`tool_trace` JSON column).  Key presence is modelled with `Option`:
`calls := none` means the dict has no `"calls"` key at all. -/
structure ToolTraceJ where
  calls : Option (List RawCall) := none
  responses : Option (List RawResp) := none

/-- A row of the `chat_messages` table (`app/db/models/chat.py`,
`ChatMessage`), restricted to the fields `prepare_chat_history` reads.
The binary `thought_signature` is modelled as a string. -/
structure ChatMsg where
  conversation_id : Nat
  user_message : String
  llm_response : Option String := none
  thought_signature : Option String := none
  tool_trace : Option ToolTraceJ := none
  created_at : Nat := 0

/-- Roles of provider transcript entries. -/
inductive Role
  | user
  | model
  | tool
  deriving DecidableEq, Repr

/-- A content part (`types.Part`): any of text, tool call, tool response and
thought signature may be present. -/
structure HPart where
  text : Option String := none
  thought_signature : Option String := none
  function_call : Option RawCall := none
  function_response : Option RawResp := none

/-- A transcript entry (`types.Content`): role plus parts. -/
structure Content where
  role : Role
  parts : List HPart

/-- The fixed placeholder signature token of `prepare_chat_history`. -/
def dummy_signature : String := "skip_thought_signature_validator"

/-- The transcript entries `prepare_chat_history` emits for one stored
message: the user turn, the reconstructed tool trace (guarded by the Python
truthiness of the trace dict, then by key presence), and the final model
text when a non-empty answer was stored. -/
def historyOfMsg (use_dummy_signatures : Bool) (msg : ChatMsg) : List Content :=
  let userEntry : Content := { role := .user, parts := [{ text := some msg.user_message }] }
  let traceEntries : List Content :=
    match msg.tool_trace with
    | none => []
    | some tt =>
      if tt.calls.isNone && tt.responses.isNone then []
      else
        (match tt.calls with
         | none => []
         | some cs =>
           let sig : String :=
             match msg.thought_signature with
             | none => dummy_signature
             | some s => if use_dummy_signatures || s.isEmpty then dummy_signature else s
           [{ role := .model,
              parts := cs.map (fun c =>
                { thought_signature := some sig, function_call := some c }) }])
        ++ (match tt.responses with
            | none => []
            | some rs =>
              [{ role := .tool,
                 parts := rs.map (fun r => { function_response := some r }) }])
  let finalEntry : List Content :=
    match msg.llm_response with
    | none => []
    | some s =>
      if s.isEmpty then [] else [{ role := .model, parts := [{ text := some s }] }]
  userEntry :: (traceEntries ++ finalEntry)

/-- Stable insertion of a message into a list sorted by `created_at` ascending. -/
def insertMsgAsc (m : ChatMsg) : List ChatMsg → List ChatMsg
  | [] => [m]
  | x :: xs =>
    if x.created_at ≤ m.created_at then x :: insertMsgAsc m xs
    else m :: x :: xs

/-- `ORDER BY ChatMessage.created_at ASC`. -/
def sortMsgsAsc : List ChatMsg → List ChatMsg
  | [] => []
  | x :: xs => insertMsgAsc x (sortMsgsAsc xs)

/-- `GeminiManager.prepare_chat_history`: fetch the conversation's messages
oldest first and replay each into transcript entries.  `db` is the
`chat_messages` table. -/
def prepare_chat_history (conversation_id : Nat) (db : List ChatMsg)
    (use_dummy_signatures : Bool) : List Content :=
  (sortMsgsAsc (db.filter (fun m => m.conversation_id == conversation_id))).flatMap
    (historyOfMsg use_dummy_signatures)

/-- `build_rag_prompt` (`app/llm/prompts.py`), the template condensed to its
structure (instruction text, then context, then the user question), with the
trailing `.strip()`. -/
def build_rag_prompt (query context : String) : String :=
  pyStrip ("\n    You are a helpful, accurate assistant.\n\n    Use ONLY the information provided in the context below.\n\n    Context:\n    " ++ context ++ "\n\n    User question:\n    " ++ query ++ "\n    ")

/-- One provider exchange as the orchestrator observes it: either the first
candidate's content parts, or an exception (carrying its message) raised by
`client.aio.models.generate_content`. -/
inductive ProviderStep
  | reply (parts : List HPart)
  | raise (msg : String)

/-- The in-memory tool trace `generate_response` builds during one attempt
(`current_tool_trace`). -/
structure ToolTrace where
  calls : List RawCall
  responses : List RawResp

/-- The mutable state of one orchestration attempt: the transcript, the
trace, the last seen signature, the session, how many provider calls were
made so far (indexing the provider script), and a fresh-id counter for
created task rows. -/
structure OrchState where
  contents : List Content
  trace : ToolTrace
  lastSig : Option String
  sess : Session
  callIdx : Nat
  freshId : Nat

/-- A successfully finished turn: the dict `generate_response` returns. -/
structure GenOk where
  answer : String
  thought_signature : Option String
  tool_trace : ToolTrace

/-- How one orchestration attempt ends: the normal result dict, the
turn-limit error string the source returns instead of raising, or a
propagating exception (its message). -/
inductive LoopOut
  | final (r : GenOk)
  | limitMsg (s : String)
  | exn (e : String)

/-- The string returned when the loop exhausts `max_turns`. -/
def turnLimitMsg : String := "Error: Maximum conversation turns reached without a final answer."

/-- The message of the `RuntimeError` raised on a response with no content
parts (the spec's `ProviderError`). -/
def providerEmptyMsg : String := "LLM returned an empty response"

/-- The message of the `AttributeError` Python raises when `.strip()` is
called on a final part whose `text` is `None` (message text abstracted). -/
def noneStripMsg : String := "AttributeError: NoneType object has no attribute strip"

/-- `max_turns` (design value 5). -/
def max_turns : Nat := 5

/-- The signature scan of the loop body: `last_thought_signature` is
overwritten by every truthy (non-empty) part signature, in part order. -/
def updateLastSig (last : Option String) (parts : List HPart) : Option String :=
  parts.foldl
    (fun acc p =>
      match p.thought_signature with
      | some s => if s.isEmpty then acc else some s
      | none => acc)
    last

/-- The state after processing one tool call inside the loop: record the
call, execute it, record the result, and append the model turn and the tool
response to the transcript. -/
def toolStep (call : RawCall) (parts : List HPart) (user_id conversation_id : Nat)
    (st : OrchState) : OrchState :=
  let er := _execute_task_tool call user_id conversation_id st.freshId st.freshId st.sess
  { st with
    trace := { calls := st.trace.calls ++ [call],
               responses := st.trace.responses ++ [{ name := call.name, content := er.1 }] },
    sess := er.2,
    freshId := st.freshId + 1,
    contents := st.contents ++
      [{ role := .model, parts := parts },
       { role := .tool,
         parts := [{ function_response := some { name := call.name, content := er.1 } }] }] }

/-- The agentic multi-turn loop of `generate_response` (`for turn in
range(max_turns)`), as a fuelled recursion.  Each iteration calls the
provider, raises on empty parts, scans signatures, and either executes the
first tool call and continues, or returns the first part's text as the final
answer; exhausted fuel returns the terminal error string. -/
def turnLoop (provider : Nat → ProviderStep) (user_id conversation_id : Nat) :
    Nat → OrchState → LoopOut × OrchState
  | 0, st => (.limitMsg turnLimitMsg, st)
  | fuel + 1, st =>
    match provider st.callIdx with
    | .raise m => (.exn m, { st with callIdx := st.callIdx + 1 })
    | .reply parts =>
      let st1 : OrchState := { st with callIdx := st.callIdx + 1 }
      match parts with
      | [] => (.exn providerEmptyMsg, st1)
      | p0 :: rest =>
        let st2 : OrchState := { st1 with lastSig := updateLastSig st1.lastSig (p0 :: rest) }
        match (p0 :: rest).findSome? (fun p => p.function_call) with
        | some call =>
          turnLoop provider user_id conversation_id fuel
            (toolStep call (p0 :: rest) user_id conversation_id st2)
        | none =>
          match p0.text with
          | none => (.exn noneStripMsg, st2)
          | some t =>
            (.final { answer := pyStrip t, thought_signature := st2.lastSig,
                      tool_trace := st2.trace }, st2)

/-- One attempt of the outer signature-retry loop: rehydrate history from the
database with the given dummy-signature flag, append the new user prompt and
run the bounded loop with fresh collectors. -/
def runAttempt (provider : Nat → ProviderStep) (query context : String)
    (user_id conversation_id : Nat) (db : List ChatMsg) (use_dummy : Bool)
    (sess : Session) (callIdx freshId : Nat) : LoopOut × OrchState :=
  turnLoop provider user_id conversation_id max_turns
    { contents :=
        prepare_chat_history conversation_id db use_dummy ++
          [{ role := .user, parts := [{ text := some (build_rag_prompt query context) }] }],
      trace := { calls := [], responses := [] },
      lastSig := none,
      sess := sess,
      callIdx := callIdx,
      freshId := freshId }

/-- Does the exception message indicate a signature-validation failure
(`"thought_signature" in str(e).lower()`)? -/
def sigRelated (m : String) : Bool :=
  charsIn "thought_signature".toList (lowerChars m)

/-- `GeminiManager.generate_response`: the two-attempt outer loop.  The first
attempt runs with real signatures; if it raises an exception whose message is
signature-related (and only then, since `use_dummy` is still false), the flag
is set and the whole turn sequence is retried once with history rebuilt from
scratch; any other exception — or anything the second attempt raises — is
propagated unchanged.  The returned state carries the trace and session at
the exit point. -/
def generate_response (provider : Nat → ProviderStep) (query context : String)
    (user_id conversation_id : Nat) (db : List ChatMsg) (sess : Session)
    (freshId : Nat) : LoopOut × OrchState :=
  let a0 := runAttempt provider query context user_id conversation_id db false sess 0 freshId
  match a0.1 with
  | .exn m =>
    if sigRelated m then
      runAttempt provider query context user_id conversation_id db true
        a0.2.sess a0.2.callIdx a0.2.freshId
    else a0
  | _ => a0

/-- Status enum of a chat row (`app/db/models/chat.py`, `ChatStatus`). -/
inductive ChatStatus
  | pending
  | completed
  | error
  deriving DecidableEq, Repr

/-- The `ChatMessage` row `chat_service` persists in its `finally` block,
restricted to the outcome-bearing fields (model name and latency are
incidental metadata and are omitted). -/
structure ChatRow where
  user_id : Nat
  conversation_id : Nat
  user_message : String
  llm_response : Option String
  thought_signature : Option String
  tool_trace : Option ToolTrace
  error_message : Option String
  status : ChatStatus

/-- What a `chat_service` invocation produces: the value returned to the
caller (or the propagating exception's message) and the chat rows durably
written by the final commit. -/
structure ChatOutcome where
  result : Except String (String × Nat)
  rows : List ChatRow

/-- The message of the `AttributeError` Python raises when `.get` is called
on the turn-limit string result (message text abstracted). -/
def strGetMsg : String := "AttributeError: str object has no attribute get"

/-- `chat_service` (`app/services/chat_service.py`), from the `try` block
onward (the no-files path; file validation and the cross-user conversation
guard raise before this block and are outside this model).  `retrieval`
abstracts the ingestion/retrieval steps: `.error` is an exception raised
before the LLM call, `.ok context` their successful result.  `persistOk`
says whether the final `session.add` + `commit` of the chat row succeeds;
when it fails — or when building the row itself raises — the session is
rolled back, the failure is swallowed, and the already-computed result or
exception stands.  When `generate_response` returns its turn-limit string,
`llm_result.get("answer")` raises an `AttributeError` (both at the answer
extraction and again inside the `finally` block when the row is built), so
no row is written and the `AttributeError` propagates. -/
def chat_service (message : String) (user_id conv_id : Nat)
    (retrieval : Except String String) (provider : Nat → ProviderStep)
    (db : List ChatMsg) (sess : Session) (freshId : Nat) (persistOk : Bool) :
    ChatOutcome :=
  match retrieval with
  | .error e =>
    let row : ChatRow :=
      { user_id := user_id, conversation_id := conv_id, user_message := message,
        llm_response := none, thought_signature := none, tool_trace := none,
        error_message := some e, status := .error }
    { result := .error e, rows := if persistOk then [row] else [] }
  | .ok context =>
    match (generate_response provider message context user_id conv_id db sess freshId).1 with
    | .exn e =>
      let row : ChatRow :=
        { user_id := user_id, conversation_id := conv_id, user_message := message,
          llm_response := none, thought_signature := none, tool_trace := none,
          error_message := some e, status := .error }
      { result := .error e, rows := if persistOk then [row] else [] }
    | .final r =>
      let row : ChatRow :=
        { user_id := user_id, conversation_id := conv_id, user_message := message,
          llm_response := some r.answer, thought_signature := r.thought_signature,
          tool_trace := some r.tool_trace, error_message := none, status := .completed }
      { result := .ok (r.answer, conv_id), rows := if persistOk then [row] else [] }
    | .limitMsg _ =>
      { result := .error strGetMsg, rows := [] }

/-! ## Theorems -/

/-- Does the outcome model a raised exception? -/
def LoopOut.isExn : LoopOut → Bool
  | .exn _ => true
  | _ => false

/-- A provider that answers every exchange with a single tool-call part and
never produces a text-only response. -/
def alwaysToolProvider : Nat → ProviderStep :=
  fun _ => .reply [{ function_call := some { name := "nosuch", args := { action := some "list" } } }]

/-- Does this provider step contain a tool call (non-empty parts with at
least one `function_call`), so that the loop iteration continues instead of
returning? -/
def isToolReplyB : ProviderStep → Bool
  | .reply parts => !parts.isEmpty && (parts.findSome? (fun p => p.function_call)).isSome
  | .raise _ => false

/-- If every provider exchange is a tool-call reply, the bounded loop always
ends by returning the terminal turn-limit string. -/
theorem turnLoop_allTool_limit (provider : Nat → ProviderStep) (uid cid : Nat)
    (h : ∀ i, isToolReplyB (provider i) = true) :
    ∀ fuel st, (turnLoop provider uid cid fuel st).1 = .limitMsg turnLimitMsg := by
  intro fuel
  induction fuel with
  | zero => intro st; rfl
  | succ n ih =>
    intro st
    have hb := h st.callIdx
    cases hp : provider st.callIdx with
    | raise m => rw [hp] at hb; simp [isToolReplyB] at hb
    | reply parts =>
      rw [hp] at hb
      cases parts with
      | nil => simp [isToolReplyB] at hb
      | cons p0 rest =>
        simp only [isToolReplyB, Bool.and_eq_true, Option.isSome_iff_exists] at hb
        obtain ⟨-, call, hc⟩ := hb
        simp only [turnLoop, hp, hc]
        exact ih _

/-- C1, counterexample: with a provider that emits a tool call on all five
exchanges (never a text-only response), `generate_response` does not raise
anything — contrary to the claim that the operation "fails by raising
TurnLimitExceeded" — it returns the fixed terminal error string. -/
theorem c1_counterexample :
    (generate_response alwaysToolProvider "q" "ctx" 1 2 [] { base := [], cur := [] } 0).1.isExn
        = false
    ∧ (generate_response alwaysToolProvider "q" "ctx" 1 2 [] { base := [], cur := [] } 0).1
        = .limitMsg turnLimitMsg :=
  ⟨rfl, rfl⟩

/-- C1, amended: if the orchestration loop completes its fixed maximum of 5
provider exchanges without the provider ever returning a text-only (no
tool-call) response, `generate_response` returns the fixed terminal error
string "Error: Maximum conversation turns reached without a final answer."
(no exception is raised); it never returns a normal answer dict in that
case. -/
theorem c1_turn_limit_result (provider : Nat → ProviderStep) (query context : String)
    (uid cid freshId : Nat) (db : List ChatMsg) (sess : Session)
    (h : ∀ i, isToolReplyB (provider i) = true) :
    (generate_response provider query context uid cid db sess freshId).1
      = .limitMsg turnLimitMsg := by
  have h0 : (runAttempt provider query context uid cid db false sess 0 freshId).1
      = .limitMsg turnLimitMsg := turnLoop_allTool_limit provider uid cid h max_turns _
  simp only [generate_response]
  rw [h0]
  exact h0

/-- C1, witness for the amended theorem at a concrete provider script. -/
theorem c1_turn_limit_result_witness :
    (generate_response alwaysToolProvider "hello" "docs" 3 4 [] { base := [], cur := [] } 7).1
      = .limitMsg turnLimitMsg :=
  c1_turn_limit_result alwaysToolProvider "hello" "docs" 3 4 7 [] { base := [], cur := [] }
    (fun _ => rfl)

/-- C6: inside the orchestration loop, a provider response whose first
candidate has no content parts makes the iteration raise at once (the
`RuntimeError` the spec names `ProviderError`): the turn fails rather than
continuing or returning an empty answer, and the state is left as it was
apart from the consumed provider call. -/
theorem c6_empty_parts_raises (provider : Nat → ProviderStep)
    (uid cid fuel : Nat) (st : OrchState) (h : provider st.callIdx = .reply []) :
    turnLoop provider uid cid (fuel + 1) st
      = (.exn providerEmptyMsg, { st with callIdx := st.callIdx + 1 }) := by
  simp [turnLoop, h]

/-- C6, witness: a concrete empty-parts reply on the first exchange. -/
theorem c6_empty_parts_raises_witness :
    turnLoop (fun _ => .reply []) 1 2 5
      { contents := [], trace := { calls := [], responses := [] }, lastSig := none,
        sess := { base := [], cur := [] }, callIdx := 0, freshId := 0 }
      = (.exn providerEmptyMsg,
         { contents := [], trace := { calls := [], responses := [] }, lastSig := none,
           sess := { base := [], cur := [] }, callIdx := 1, freshId := 0 }) :=
  c6_empty_parts_raises (fun _ => .reply []) 1 2 4
    { contents := [], trace := { calls := [], responses := [] }, lastSig := none,
      sess := { base := [], cur := [] }, callIdx := 0, freshId := 0 } rfl

/-- C10: for every tool-call part whose function name is not `task.manage`,
`_execute_task_tool` returns the structured result
`{"error": "unknown tool <name>"}` without raising, without validating the
arguments, and without performing any store operation or rollback: the
session is returned untouched for every session, including one with pending
changes. -/
theorem c10_unknown_tool (call : RawCall) (user_id conversation_id newId now : Nat)
    (sess : Session) (h : call.name ≠ "task.manage") :
    _execute_task_tool call user_id conversation_id newId now sess
      = (.obj [("error", .s ("unknown tool " ++ call.name))], sess) := by
  simp [_execute_task_tool, h]

/-- C10, witness: a concrete unknown tool name on a session with a pending
(uncommitted) task, which is preserved verbatim. -/
theorem c10_unknown_tool_witness :
    _execute_task_tool { name := "web.search", args := {} } 1 2 3 3
        { base := [],
          cur := [{ task_id := 9, conversation_id := 2, created_by_user_id := 1,
                    title := "pending" }] }
      = (.obj [("error", .s ("unknown tool " ++ "web.search"))],
         { base := [],
           cur := [{ task_id := 9, conversation_id := 2, created_by_user_id := 1,
                     title := "pending" }] }) :=
  c10_unknown_tool { name := "web.search", args := {} } 1 2 3 3
    { base := [],
      cur := [{ task_id := 9, conversation_id := 2, created_by_user_id := 1,
                title := "pending" }] }
    (by decide)

/-- Within the bounded loop, a balanced tool trace (as many recorded
responses as recorded calls) stays balanced to every exit point: each
iteration that records a call also records exactly one response, because
tool execution is total (every exception is converted into a structured
error result). -/
theorem turnLoop_trace_balanced (provider : Nat → ProviderStep) (uid cid : Nat) :
    ∀ fuel st, st.trace.calls.length = st.trace.responses.length →
      ((turnLoop provider uid cid fuel st).2.trace.calls.length
         = (turnLoop provider uid cid fuel st).2.trace.responses.length)
      ∧ (∀ r, (turnLoop provider uid cid fuel st).1 = .final r →
          r.tool_trace.calls.length = r.tool_trace.responses.length) := by
  intro fuel
  induction fuel with
  | zero => exact fun st hb => ⟨hb, fun r hr => by cases hr⟩
  | succ n ih =>
    intro st hb
    cases hp : provider st.callIdx with
    | raise m =>
      simp only [turnLoop, hp]
      exact ⟨hb, fun r hr => by cases hr⟩
    | reply parts =>
      cases parts with
      | nil =>
        simp only [turnLoop, hp]
        exact ⟨hb, fun r hr => by cases hr⟩
      | cons p0 rest =>
        cases hc : (p0 :: rest).findSome? (fun p => p.function_call) with
        | some call =>
          simp only [turnLoop, hp, hc]
          refine ih _ ?_
          simp [toolStep, hb]
        | none =>
          cases ht : p0.text with
          | none =>
            simp only [turnLoop, hp, hc, ht]
            exact ⟨hb, fun r hr => by cases hr⟩
          | some t =>
            simp only [turnLoop, hp, hc, ht]
            exact ⟨hb, fun r hr => by cases hr; exact hb⟩

/-- C8: at every exit point of the orchestration (normal return, turn-limit
exit, or a propagating exception), the tool trace built so far satisfies
`len(calls) == len(responses)`: the state at the exit is balanced, and so is
the trace inside a returned result dict.  Holds for every provider script,
database and session, i.e. across both retry attempts. -/
theorem c8_trace_balanced (provider : Nat → ProviderStep) (query context : String)
    (uid cid freshId : Nat) (db : List ChatMsg) (sess : Session) :
    ((generate_response provider query context uid cid db sess freshId).2.trace.calls.length
       = (generate_response provider query context uid cid db sess
            freshId).2.trace.responses.length)
    ∧ (∀ r, (generate_response provider query context uid cid db sess freshId).1 = .final r →
        r.tool_trace.calls.length = r.tool_trace.responses.length) := by
  have key : ∀ (u : Bool) (s : Session) (ci fi : Nat),
      ((runAttempt provider query context uid cid db u s ci fi).2.trace.calls.length
         = (runAttempt provider query context uid cid db u s ci fi).2.trace.responses.length)
      ∧ (∀ r, (runAttempt provider query context uid cid db u s ci fi).1 = .final r →
          r.tool_trace.calls.length = r.tool_trace.responses.length) :=
    fun u s ci fi => turnLoop_trace_balanced provider uid cid max_turns _ rfl
  simp only [generate_response]
  cases ha : (runAttempt provider query context uid cid db false sess 0 freshId).1 with
  | exn m =>
    by_cases hs : sigRelated m = true
    · simp only [ha, hs, if_pos]
      exact key true _ _ _
    · simp only [ha, hs, if_neg, Bool.not_eq_true]
      refine ⟨(key false sess 0 freshId).1, fun r hr => ?_⟩
      cases hr
  | final r =>
    exact ⟨(key false sess 0 freshId).1,
           fun r' hr' => (key false sess 0 freshId).2 r' hr'⟩
  | limitMsg s =>
    exact ⟨(key false sess 0 freshId).1,
           fun r' hr' => LoopOut.noConfusion (ha.symm.trans hr')⟩

/-- A provider whose first call raises a signature-validation error and
which then answers with plain text. -/
def sigFailProvider : Nat → ProviderStep :=
  fun i =>
    if i == 0 then .raise "Thought_signature invalid"
    else .reply [{ text := some "recovered answer" }]

/-- C2: if the first attempt of `generate_response` ends in an exception
whose message contains the signature-validation indicator
(`"thought_signature"`, case-insensitively), exactly one retry of the whole
turn sequence occurs, with the use-dummy-signatures flag set and the
transcript history rebuilt from scratch via `prepare_chat_history`; whatever
the retry produces — including a second signature failure — is the final
outcome, propagated unmodified.  An exception whose message is not
signature-related propagates to the caller unmodified. -/
theorem c2_signature_retry (provider : Nat → ProviderStep) (query context : String)
    (uid cid freshId : Nat) (db : List ChatMsg) (sess : Session) (m : String)
    (h : (runAttempt provider query context uid cid db false sess 0 freshId).1 = .exn m) :
    (sigRelated m = true →
      generate_response provider query context uid cid db sess freshId
        = runAttempt provider query context uid cid db true
            (runAttempt provider query context uid cid db false sess 0 freshId).2.sess
            (runAttempt provider query context uid cid db false sess 0 freshId).2.callIdx
            (runAttempt provider query context uid cid db false sess 0 freshId).2.freshId)
    ∧ (sigRelated m = false →
      generate_response provider query context uid cid db sess freshId
        = (.exn m, (runAttempt provider query context uid cid db false sess 0 freshId).2))
    ∧ (sigRelated m = true → ∀ m2,
        (runAttempt provider query context uid cid db true
            (runAttempt provider query context uid cid db false sess 0 freshId).2.sess
            (runAttempt provider query context uid cid db false sess 0 freshId).2.callIdx
            (runAttempt provider query context uid cid db false sess 0 freshId).2.freshId).1
          = .exn m2 →
        (generate_response provider query context uid cid db sess freshId).1 = .exn m2)
    ∧ (∀ (s : Session) (ci fi : Nat),
        runAttempt provider query context uid cid db true s ci fi
          = turnLoop provider uid cid max_turns
              { contents :=
                  prepare_chat_history cid db true ++
                    [{ role := .user,
                       parts := [{ text := some (build_rag_prompt query context) }] }],
                trace := { calls := [], responses := [] },
                lastSig := none, sess := s, callIdx := ci, freshId := fi }) := by
  refine ⟨?_, ?_, ?_, fun s ci fi => rfl⟩
  · intro hs
    simp only [generate_response, h, hs, if_pos]
  · intro hs
    have : generate_response provider query context uid cid db sess freshId
        = runAttempt provider query context uid cid db false sess 0 freshId := by
      simp only [generate_response, h, hs]
      simp
    rw [this]
    exact Prod.ext h rfl
  · intro hs m2 h2
    have : generate_response provider query context uid cid db sess freshId
        = runAttempt provider query context uid cid db true
            (runAttempt provider query context uid cid db false sess 0 freshId).2.sess
            (runAttempt provider query context uid cid db false sess 0 freshId).2.callIdx
            (runAttempt provider query context uid cid db false sess 0 freshId).2.freshId := by
      simp only [generate_response, h, hs, if_pos]
    rw [this, h2]

/-- C2, witness: a concrete first-call signature failure triggers the dummy
retry, and the non-signature indicator test is exercised as well. -/
theorem c2_signature_retry_witness :
    sigRelated "Thought_signature invalid" = true
    ∧ generate_response sigFailProvider "q" "ctx" 1 2 [] { base := [], cur := [] } 0
        = runAttempt sigFailProvider "q" "ctx" 1 2 [] true
            (runAttempt sigFailProvider "q" "ctx" 1 2 [] false
              { base := [], cur := [] } 0 0).2.sess
            (runAttempt sigFailProvider "q" "ctx" 1 2 [] false
              { base := [], cur := [] } 0 0).2.callIdx
            (runAttempt sigFailProvider "q" "ctx" 1 2 [] false
              { base := [], cur := [] } 0 0).2.freshId :=
  ⟨by decide,
   (c2_signature_retry sigFailProvider "q" "ctx" 1 2 0 [] { base := [], cur := [] }
      "Thought_signature invalid" rfl).1 (by decide)⟩

/-- A stored message exactly as a completed turn with no tool activity
persists it: `generate_response` always returns a trace holding both keys
with empty lists, and `chat_service` stores it verbatim next to the final
answer. -/
def c3msg : ChatMsg :=
  { conversation_id := 7, user_message := "hi",
    llm_response := some "the answer",
    tool_trace := some { calls := some [], responses := some [] } }

/-- C3, counterexample: for a stored turn whose tool trace has no calls and
no responses (empty lists under both keys) the claim prescribes only the
user entry followed by the final model text entry — but the code keys on
the presence of the `"calls"` and `"responses"` keys and emits an extra
empty-parts model entry and an extra empty-parts tool entry in between. -/
theorem c3_counterexample :
    prepare_chat_history 7 [c3msg] false
      = [{ role := .user, parts := [{ text := some "hi" }] },
         { role := .model, parts := [] },
         { role := .tool, parts := [] },
         { role := .model, parts := [{ text := some "the answer" }] }]
    ∧ prepare_chat_history 7 [c3msg] false
      ≠ [{ role := .user, parts := [{ text := some "hi" }] },
         { role := .model, parts := [{ text := some "the answer" }] }] := by
  refine ⟨rfl, fun h => ?_⟩
  have h2 := congrArg List.length h
  rw [show prepare_chat_history 7 [c3msg] false
      = [{ role := .user, parts := [{ text := some "hi" }] },
         { role := .model, parts := [] },
         { role := .tool, parts := [] },
         { role := .model, parts := [{ text := some "the answer" }] }] from rfl] at h2
  simp at h2

/-- The signature the amended C3 assigns to every reconstructed tool-call
part of a turn: the stored signature, unless the dummy flag is set or no
non-empty signature was stored, in which case the fixed placeholder token. -/
def specSignature (use_dummy : Bool) (stored : Option String) : String :=
  match stored with
  | some s => if use_dummy || s.isEmpty then dummy_signature else s
  | none => dummy_signature

/-- The amended C3 description of one stored turn's transcript entries: a
user entry; then, whenever the stored trace contains a calls field, one
model entry holding one tool-call part per listed call (an empty-parts
entry when the list is empty), each part signed per `specSignature`; then,
whenever the trace contains a responses field, one tool entry with one
result part per response in stored order; then, if a non-empty final answer
text was stored, a model text entry. -/
def specTurnEntries (use_dummy : Bool) (msg : ChatMsg) : List Content :=
  [{ role := .user, parts := [{ text := some msg.user_message }] }]
  ++ (match msg.tool_trace with
      | some tt =>
        (match tt.calls with
         | some cs =>
           [{ role := .model,
              parts := cs.map (fun c =>
                { thought_signature := some (specSignature use_dummy msg.thought_signature),
                  function_call := some c }) }]
         | none => [])
        ++ (match tt.responses with
            | some rs =>
              [{ role := .tool,
                 parts := rs.map (fun r => { function_response := some r }) }]
            | none => [])
      | none => [])
  ++ (match msg.llm_response with
      | some s =>
        if s.isEmpty then [] else [{ role := .model, parts := [{ text := some s }] }]
      | none => [])

/-- Per stored turn, the code's reconstruction agrees with the amended
spec-side description (the redundant dict-truthiness guard included). -/
theorem historyOfMsg_eq_spec (u : Bool) (m : ChatMsg) :
    historyOfMsg u m = specTurnEntries u m := by
  rcases m with ⟨cid, um, lr, ts, tt, ca⟩
  rcases tt with _ | ⟨cs, rs⟩
  · rcases lr with _ | s <;> rcases ts with _ | t <;>
      simp [historyOfMsg, specTurnEntries, specSignature]
  · rcases cs with _ | cs <;> rcases rs with _ | rs <;>
      rcases lr with _ | s <;> rcases ts with _ | t <;>
      simp [historyOfMsg, specTurnEntries, specSignature]

/-- C3 (amended): `prepare_chat_history` returns the conversation's stored
messages oldest first, each expanded into exactly the amended per-turn entry
sequence (`specTurnEntries`): the model entry is emitted whenever the trace
contains a calls field (one tool-call part per call, so an empty-parts
entry for an empty list), with the stored signature on every part unless
the dummy flag is set or no signature was stored (then the placeholder
token); the tool entry whenever the trace contains a responses field; a
final model text entry for a non-empty stored answer.  A conversation with
no stored messages yields the empty sequence, never an error. -/
theorem c3_history_shape (conversation_id : Nat) (db : List ChatMsg) (use_dummy : Bool) :
    prepare_chat_history conversation_id db use_dummy
      = (sortMsgsAsc (db.filter (fun m => m.conversation_id == conversation_id))).flatMap
          (specTurnEntries use_dummy)
    ∧ prepare_chat_history conversation_id [] use_dummy = [] := by
  constructor
  · unfold prepare_chat_history
    rw [funext (historyOfMsg_eq_spec use_dummy)]
  · rfl

/-- Inserting into the descending sort adds one element. -/
theorem length_insertTaskDesc (t : Task) (l : List Task) :
    (insertTaskDesc t l).length = l.length + 1 := by
  induction l with
  | nil => rfl
  | cons x xs ih =>
    simp only [insertTaskDesc]
    split <;> simp [ih]

/-- `ORDER BY` does not change the result-set size. -/
theorem length_sortTasksDesc (l : List Task) : (sortTasksDesc l).length = l.length := by
  induction l with
  | nil => rfl
  | cons x xs ih => simp [sortTasksDesc, length_insertTaskDesc, ih]

/-- Membership in the descending insertion. -/
theorem mem_insertTaskDesc {a t : Task} {l : List Task} :
    a ∈ insertTaskDesc t l ↔ a = t ∨ a ∈ l := by
  induction l with
  | nil => simp [insertTaskDesc]
  | cons x xs ih =>
    simp only [insertTaskDesc]
    split
    · simp [List.mem_cons, ih]
      tauto
    · simp [List.mem_cons]

/-- `ORDER BY` does not change the result set. -/
theorem mem_sortTasksDesc {a : Task} {l : List Task} :
    a ∈ sortTasksDesc l ↔ a ∈ l := by
  induction l with
  | nil => simp [sortTasksDesc]
  | cons x xs ih => simp [sortTasksDesc, mem_insertTaskDesc, ih]

/-- The match list of task resolution has as many entries as there are
owned matching tasks. -/
theorem length_matchingTasks (q : String) (uid : Nat) (ts : List Task) :
    (matchingTasks q uid ts).length = matchCount q uid ts :=
  length_sortTasksDesc _

/-- C4: task resolution (shared by update and delete) raises
`ToolExecutionError("No matching task found")` when zero owned tasks match
the query as a case-insensitive substring of title or description, raises
`ToolExecutionError("Multiple matching tasks found")` when more than one
matches, and an update whose query matches at least two of the owner's
tasks fails with that error while the transaction is rolled back, so the
store reverts to the transaction-start state and no TaskRecord is mutated. -/
theorem c4_ambiguous_resolution (q : String) (uid newId now : Nat) (sess : Session)
    (args : ManageTaskArgs) :
    (matchCount q uid sess.cur = 0 →
      _resolve_single_task_by_query q uid sess.cur = .error ⟨"No matching task found"⟩)
    ∧ (2 ≤ matchCount q uid sess.cur →
      _resolve_single_task_by_query q uid sess.cur = .error ⟨"Multiple matching tasks found"⟩)
    ∧ (args.action = .update → args.query = some q → q.isEmpty = false →
      2 ≤ matchCount q uid sess.cur →
      manage_task args uid newId now sess
        = (.error ⟨"Multiple matching tasks found"⟩, { base := sess.base, cur := sess.base })) := by
  have hlen := length_matchingTasks q uid sess.cur
  have hmult : 2 ≤ matchCount q uid sess.cur →
      _resolve_single_task_by_query q uid sess.cur
        = .error ⟨"Multiple matching tasks found"⟩ := by
    intro h2
    unfold _resolve_single_task_by_query
    cases hm : matchingTasks q uid sess.cur with
    | nil => rw [hm] at hlen; simp at hlen; omega
    | cons a t =>
      cases t with
      | nil => rw [hm] at hlen; simp at hlen; omega
      | cons b t2 => rfl
  refine ⟨?_, hmult, ?_⟩
  · intro h0
    unfold _resolve_single_task_by_query
    have : matchingTasks q uid sess.cur = [] := by
      apply List.length_eq_zero.mp
      rw [hlen, h0]
    rw [this]
  · intro hact hq hqe h2
    have hres := hmult h2
    simp only [manage_task, dispatchAction, hact, update_task, hq, optFalsy, hqe,
               Bool.false_eq_true, if_false, Option.getD_some, hres, Session.rollback]

/-- C5: for a validated argument set with `action=create`: a missing
conversation id or a missing (or empty) title raises `ToolExecutionError`
and the transaction is rolled back so the store reverts to the
transaction-start state and no TaskRecord is persisted; otherwise exactly
one new TaskRecord is appended — owned by the caller, with status TODO
unless a status was supplied — and the result contains exactly the created
task's title and status. -/
theorem c5_create (args : ManageTaskArgs) (uid newId now : Nat) (sess : Session)
    (hact : args.action = .create) :
    (args.conversation_id = none →
      manage_task args uid newId now sess
        = (.error ⟨"conversation id is required"⟩, { base := sess.base, cur := sess.base }))
    ∧ (∀ cid, args.conversation_id = some cid → optFalsy args.title = true →
      manage_task args uid newId now sess
        = (.error ⟨"title is required"⟩, { base := sess.base, cur := sess.base }))
    ∧ (∀ cid ttl, args.conversation_id = some cid → args.title = some ttl →
      ttl.isEmpty = false →
      manage_task args uid newId now sess
        = (.ok (.obj [("title", .s ttl), ("status", .s (args.status.getD .todo).value)]),
           { base := sess.base,
             cur := sess.cur ++
               [{ task_id := newId, conversation_id := cid, created_by_user_id := uid,
                  title := ttl, description := args.description,
                  status := args.status.getD .todo, created_at := now }] })) := by
  refine ⟨?_, ?_, ?_⟩
  · intro hconv
    simp only [manage_task, dispatchAction, hact, create_task, hconv, Option.isNone_none,
               if_true, Session.rollback]
  · intro cid hconv htitle
    simp only [manage_task, dispatchAction, hact, create_task, hconv, Option.isNone_some,
               Bool.false_eq_true, if_false, htitle, if_true, Session.rollback]
  · intro cid ttl hconv htitle hne
    simp only [manage_task, dispatchAction, hact, create_task, hconv, Option.isNone_some,
               Bool.false_eq_true, if_false, htitle, optFalsy, hne, Option.getD_some]

/-- C5, witness: the three branches at concrete inputs — missing
conversation id, missing title (rolled back with a pending task discarded),
and a successful default-status creation. -/
theorem c5_create_witness :
    (manage_task { action := .create, title := some "T" } 1 50 50
        { base := [], cur := [] }
      = (.error ⟨"conversation id is required"⟩, { base := [], cur := [] }))
    ∧ (manage_task { action := .create, conversation_id := some 9 } 1 50 50
        { base := [],
          cur := [{ task_id := 8, conversation_id := 9, created_by_user_id := 1,
                    title := "pending" }] }
      = (.error ⟨"title is required"⟩, { base := [], cur := [] }))
    ∧ (manage_task { action := .create, conversation_id := some 9,
                     title := some "Write tests" } 1 50 50 { base := [], cur := [] }
      = (.ok (.obj [("title", .s "Write tests"), ("status", .s "todo")]),
         { base := [],
           cur := [{ task_id := 50, conversation_id := 9, created_by_user_id := 1,
                     title := "Write tests", description := none,
                     status := .todo, created_at := 50 }] })) :=
  ⟨(c5_create { action := .create, title := some "T" } 1 50 50
      { base := [], cur := [] } rfl).1 rfl,
   (c5_create { action := .create, conversation_id := some 9 } 1 50 50
      { base := [],
        cur := [{ task_id := 8, conversation_id := 9, created_by_user_id := 1,
                  title := "pending" }] } rfl).2.1 9 rfl rfl,
   (c5_create { action := .create, conversation_id := some 9,
                title := some "Write tests" } 1 50 50
      { base := [], cur := [] } rfl).2.2 9 "Write tests" rfl rfl rfl⟩

/-- Two tasks of the same owner both matching the query "report". -/
def w4a : Task :=
  { task_id := 1, conversation_id := 9, created_by_user_id := 1,
    title := "Finish Report", created_at := 5 }

/-- Second matching task of the same owner (match via the description). -/
def w4b : Task :=
  { task_id := 2, conversation_id := 9, created_by_user_id := 1,
    title := "Draft", description := some "outline of the report", created_at := 3 }

/-- C4, witness: zero matches on an empty store, an ambiguous pair, and an
ambiguous update that leaves the store exactly as the transaction started. -/
theorem c4_ambiguous_resolution_witness :
    (_resolve_single_task_by_query "report" 1 [] = .error ⟨"No matching task found"⟩)
    ∧ (_resolve_single_task_by_query "report" 1 [w4a, w4b]
        = .error ⟨"Multiple matching tasks found"⟩)
    ∧ (manage_task { action := .update, query := some "report", title := some "New" }
          1 77 77 { base := [w4a, w4b], cur := [w4a, w4b] }
        = (.error ⟨"Multiple matching tasks found"⟩,
           { base := [w4a, w4b], cur := [w4a, w4b] })) :=
  ⟨(c4_ambiguous_resolution "report" 1 77 77 { base := [], cur := [] }
      { action := .update, query := some "report", title := some "New" }).1 rfl,
   (c4_ambiguous_resolution "report" 1 77 77 { base := [w4a, w4b], cur := [w4a, w4b] }
      { action := .update, query := some "report", title := some "New" }).2.1 (by decide),
   (c4_ambiguous_resolution "report" 1 77 77 { base := [w4a, w4b], cur := [w4a, w4b] }
      { action := .update, query := some "report", title := some "New" }).2.2
     rfl rfl rfl (by decide)⟩

/-- Membership in the resolution's result set: owned and matching. -/
theorem mem_matchingTasks {a : Task} {q : String} {uid : Nat} {ts : List Task} :
    a ∈ matchingTasks q uid ts
      ↔ a ∈ ts ∧ a.created_by_user_id = uid ∧ taskMatches q a = true := by
  simp [matchingTasks, mem_sortTasksDesc, List.mem_filter, Bool.and_eq_true, beq_iff_eq,
        and_assoc]

/-- A successful resolution returns a stored task owned by the caller. -/
theorem resolve_ok_owner {q : String} {uid : Nat} {ts : List Task} {t : Task}
    (h : _resolve_single_task_by_query q uid ts = .ok t) :
    t ∈ ts ∧ t.created_by_user_id = uid := by
  unfold _resolve_single_task_by_query at h
  cases hm : matchingTasks q uid ts with
  | nil => rw [hm] at h; cases h
  | cons a tl =>
    cases tl with
    | nil =>
      rw [hm] at h
      cases h
      have ha : t ∈ matchingTasks q uid ts := by rw [hm]; exact List.mem_singleton_self t
      have := mem_matchingTasks.mp ha
      exact ⟨this.1, this.2.1⟩
    | cons b tl2 => rw [hm] at h; cases h

/-- The tasks of the store that belong to users other than `uid`. -/
def otherUsersTasks (uid : Nat) (l : List Task) : List Task :=
  l.filter (fun t => t.created_by_user_id != uid)

/-- Appending a task owned by the caller leaves other users' tasks as they
were. -/
theorem otherUsers_append_own {uid : Nat} {l : List Task} {t : Task}
    (h : t.created_by_user_id = uid) :
    otherUsersTasks uid (l ++ [t]) = otherUsersTasks uid l := by
  simp [otherUsersTasks, List.filter_append, List.filter_cons, h]

/-- A pointwise map that fixes every foreign task and keeps owned tasks
owned leaves other users' tasks as they were. -/
theorem otherUsers_map_preserve (uid : Nat) (g : Task → Task) :
    ∀ l : List Task,
      (∀ t ∈ l, (t.created_by_user_id ≠ uid → g t = t)
             ∧ (t.created_by_user_id = uid → (g t).created_by_user_id = uid)) →
      otherUsersTasks uid (l.map g) = otherUsersTasks uid l := by
  intro l
  induction l with
  | nil => intro _; rfl
  | cons x xs ih =>
    intro hl
    have hx := hl x (List.mem_cons_self x xs)
    have hxs : ∀ t ∈ xs, (t.created_by_user_id ≠ uid → g t = t)
        ∧ (t.created_by_user_id = uid → (g t).created_by_user_id = uid) :=
      fun t ht => hl t (List.mem_cons_of_mem x ht)
    by_cases ho : x.created_by_user_id = uid
    · have hg := hx.2 ho
      simp only [otherUsersTasks, List.map_cons, List.filter_cons] at *
      rw [if_neg (by simp [hg]), if_neg (by simp [ho])]
      exact ih hxs
    · have hg := hx.1 ho
      simp only [otherUsersTasks, List.map_cons, List.filter_cons] at *
      rw [hg, ih hxs]

/-- A filter that keeps every foreign task leaves other users' tasks as
they were. -/
theorem otherUsers_filter_preserve (uid : Nat) (p : Task → Bool) :
    ∀ l : List Task, (∀ t ∈ l, t.created_by_user_id ≠ uid → p t = true) →
      otherUsersTasks uid (l.filter p) = otherUsersTasks uid l := by
  intro l
  induction l with
  | nil => intro _; rfl
  | cons x xs ih =>
    intro hl
    have hxs : ∀ t ∈ xs, t.created_by_user_id ≠ uid → p t = true :=
      fun t ht => hl t (List.mem_cons_of_mem x ht)
    by_cases ho : x.created_by_user_id = uid
    · simp only [otherUsersTasks, List.filter_cons] at *
      by_cases hp : p x = true
      · rw [if_pos hp, List.filter_cons, if_neg (by simp [ho]), if_neg (by simp [ho])]
        exact ih hxs
      · rw [if_neg hp, if_neg (by simp [ho])]
        exact ih hxs
    · have hp := hl x (List.mem_cons_self x xs) ho
      simp only [otherUsersTasks, List.filter_cons] at *
      rw [if_pos hp, List.filter_cons, if_pos (by simp [ho]), if_pos (by simp [ho])]
      rw [show (List.filter (fun t => t.created_by_user_id != uid) (List.filter p xs))
          = List.filter (fun t => t.created_by_user_id != uid) xs from ih hxs]

/-- With primary keys unique in the store, two stored tasks of different
owners have different ids. -/
theorem ne_id_of_other {uid : Nat} {cur : List Task}
    (hnd : (cur.map Task.task_id).Nodup) {a b : Task}
    (ha : a ∈ cur) (hb : b ∈ cur) (hown : a.created_by_user_id ≠ uid)
    (hbo : b.created_by_user_id = uid) : a.task_id ≠ b.task_id := by
  intro hid
  have : a = b := List.inj_on_of_nodup_map hnd ha hb hid
  exact hown (this ▸ hbo)

/-- The field assignments of an update change neither the primary key nor
the owner. -/
theorem applyUpdates_id_owner (args : ManageTaskArgs) (t : Task) :
    (applyUpdates args t).1.task_id = t.task_id
    ∧ (applyUpdates args t).1.created_by_user_id = t.created_by_user_id := by
  cases hs : args.status <;> cases ht : args.title <;> cases hd : args.description <;>
    simp [applyUpdates, hs, ht, hd] <;> split_ifs <;> simp

/-- Every task the list query returns is owned by the requesting user. -/
theorem list_selection_owned (args : ManageTaskArgs) (uid : Nat) (cur : List Task) :
    ∀ t ∈ list_selection args uid cur, t.created_by_user_id = uid := by
  intro t ht
  unfold list_selection at ht
  rw [mem_sortTasksDesc] at ht
  have hstep : ∀ (l : List Task) (p : Task → Bool), t ∈ l.filter p → t ∈ l :=
    fun l p h => (List.mem_filter.mp h).1
  have h1 : t ∈ cur.filter (fun t => t.created_by_user_id == uid) := by
    cases hq : args.query <;> cases hst : args.status <;> simp only [hq, hst] at ht
    · exact ht
    · exact hstep _ _ ht
    · split at ht
      · exact ht
      · exact hstep _ _ ht
    · split at ht
      · exact hstep _ _ ht
      · exact hstep _ _ (hstep _ _ ht)
  exact beq_iff_eq.mp (List.mem_filter.mp h1).2

/-- A successful `manage_task` is a successful dispatch, with the session's
pending state replaced and its base untouched. -/
theorem manage_task_ok {args : ManageTaskArgs} {uid newId now : Nat} {sess : Session}
    {v : JVal} {sess' : Session}
    (h : manage_task args uid newId now sess = (.ok v, sess')) :
    dispatchAction args uid newId now sess.cur = .ok (v, sess'.cur)
    ∧ sess'.base = sess.base := by
  unfold manage_task at h
  cases hd : dispatchAction args uid newId now sess.cur with
  | ok p =>
    rw [hd] at h
    rcases p with ⟨v0, cur0⟩
    simp only [Prod.mk.injEq, Except.ok.injEq] at h
    obtain ⟨hv, hs⟩ := h
    subst hv
    subst hs
    exact ⟨rfl, rfl⟩
  | error e =>
    rw [hd] at h
    simp at h

/-- A successful create appends exactly the new row. -/
theorem create_ok_shape {args : ManageTaskArgs} {uid newId now : Nat} {cur : List Task}
    {v : JVal} {cur' : List Task}
    (h : create_task args uid newId now cur = .ok (v, cur')) :
    cur' = cur ++
      [{ task_id := newId, conversation_id := args.conversation_id.getD 0,
         created_by_user_id := uid, title := args.title.getD "",
         description := args.description, status := args.status.getD .todo,
         created_at := now }] := by
  unfold create_task at h
  by_cases hc : args.conversation_id.isNone = true
  · simp only [hc, if_true] at h; cases h
  · simp only [hc, Bool.false_eq_true, if_false] at h
    by_cases ht : optFalsy args.title = true
    · simp only [ht, if_true] at h; cases h
    · simp only [ht, Bool.false_eq_true, if_false] at h
      simp only [Except.ok.injEq, Prod.mk.injEq] at h
      exact h.2.symm

/-- A successful update replaces exactly the resolved row (same primary
key) with its updated version. -/
theorem update_ok_shape {args : ManageTaskArgs} {uid : Nat} {cur : List Task}
    {v : JVal} {cur' : List Task}
    (h : update_task args uid cur = .ok (v, cur')) :
    ∃ t0, _resolve_single_task_by_query (args.query.getD "") uid cur = .ok t0
      ∧ cur' = replaceTask cur (applyUpdates args t0).1 := by
  unfold update_task at h
  by_cases hq : optFalsy args.query = true
  · simp only [hq, if_true] at h; cases h
  · simp only [hq, Bool.false_eq_true, if_false] at h
    cases hr : _resolve_single_task_by_query (args.query.getD "") uid cur with
    | error e => rw [hr] at h; cases h
    | ok t0 =>
      rw [hr] at h
      by_cases hu : (!hasUpdatableField args) = true
      · simp only [hu, if_true] at h; cases h
      · simp only [hu, Bool.false_eq_true, if_false] at h
        simp only [Except.ok.injEq, Prod.mk.injEq] at h
        exact ⟨t0, rfl, h.2.symm⟩

/-- A successful delete removes exactly the resolved primary key. -/
theorem delete_ok_shape {args : ManageTaskArgs} {uid : Nat} {cur : List Task}
    {v : JVal} {cur' : List Task}
    (h : delete_task args uid cur = .ok (v, cur')) :
    ∃ t0, _resolve_single_task_by_query (args.query.getD "") uid cur = .ok t0
      ∧ cur' = cur.filter (fun t => t.task_id != t0.task_id) := by
  unfold delete_task at h
  by_cases hq : optFalsy args.query = true
  · simp only [hq, if_true] at h; cases h
  · simp only [hq, Bool.false_eq_true, if_false] at h
    cases hr : _resolve_single_task_by_query (args.query.getD "") uid cur with
    | error e => rw [hr] at h; cases h
    | ok t0 =>
      rw [hr] at h
      simp only [Except.ok.injEq, Prod.mk.injEq] at h
      exact ⟨t0, rfl, h.2.symm⟩

/-- A successful list leaves the store untouched. -/
theorem list_ok_shape {args : ManageTaskArgs} {uid : Nat} {cur : List Task}
    {v : JVal} {cur' : List Task}
    (h : list_tasks args uid cur = .ok (v, cur')) : cur' = cur := by
  unfold list_tasks at h
  simp only [Except.ok.injEq, Prod.mk.injEq] at h
  exact h.2.symm

/-- An element of the replaced store that was not stored before is the
updated row itself. -/
theorem replaceTask_new_mem {cur : List Task} {t' t : Task}
    (ht : t ∈ replaceTask cur t') (hn : t ∉ cur) : t = t' := by
  rcases List.mem_map.mp ht with ⟨x, hx, hgx⟩
  by_cases hid : (x.task_id == t'.task_id) = true
  · rw [← hgx]; simp [hid]
  · exfalso
    apply hn
    rw [← hgx]
    simp only [hid, Bool.false_eq_true, if_false]
    exact hx

/-- C9: every task operation touches only TaskRecords created by the
requesting user (primary keys assumed unique, as in the store): a
successful resolution returns a task owned by the caller; the list query
returns only the caller's tasks; a successful `manage_task` leaves every
other user's tasks exactly as they were, and any row it added or rewrote is
owned by the caller — so no operation reads or mutates another user's
task. -/
theorem c9_ownership (args : ManageTaskArgs) (q : String) (uid newId now : Nat)
    (sess : Session) (hnd : (sess.cur.map Task.task_id).Nodup) :
    (∀ t, _resolve_single_task_by_query q uid sess.cur = .ok t →
        t.created_by_user_id = uid)
    ∧ (∀ t, t ∈ list_selection args uid sess.cur → t.created_by_user_id = uid)
    ∧ (∀ v sess', manage_task args uid newId now sess = (.ok v, sess') →
        otherUsersTasks uid sess'.cur = otherUsersTasks uid sess.cur
        ∧ ∀ t, t ∈ sess'.cur → t ∉ sess.cur → t.created_by_user_id = uid) := by
  refine ⟨fun t h => (resolve_ok_owner h).2, list_selection_owned args uid sess.cur, ?_⟩
  intro v sess' h
  obtain ⟨hd, hbase⟩ := manage_task_ok h
  cases hact : args.action with
  | create =>
    rw [dispatchAction, hact] at hd
    have hcur := create_ok_shape hd
    constructor
    · rw [hcur]; exact otherUsers_append_own rfl
    · intro t ht hn
      rw [hcur] at ht
      rcases List.mem_append.mp ht with hin | hnew
      · exact absurd hin hn
      · rw [List.mem_singleton.mp hnew]
  | update =>
    rw [dispatchAction, hact] at hd
    obtain ⟨t0, hres, hcur⟩ := update_ok_shape hd
    obtain ⟨ht0mem, ht0own⟩ := resolve_ok_owner hres
    have hid := (applyUpdates_id_owner args t0).1
    have hown := (applyUpdates_id_owner args t0).2
    have hg : ∀ x ∈ sess.cur,
        (x.created_by_user_id ≠ uid →
          (if x.task_id == (applyUpdates args t0).1.task_id
            then (applyUpdates args t0).1 else x) = x)
        ∧ (x.created_by_user_id = uid →
          (if x.task_id == (applyUpdates args t0).1.task_id
            then (applyUpdates args t0).1 else x).created_by_user_id = uid) := by
      intro x hx
      constructor
      · intro hfo
        have hne : x.task_id ≠ t0.task_id :=
          ne_id_of_other hnd hx ht0mem hfo ht0own
        rw [if_neg]
        simp [hid, hne]
      · intro hxo
        by_cases hix : (x.task_id == (applyUpdates args t0).1.task_id) = true
        · rw [if_pos hix, hown]; exact ht0own
        · rw [if_neg]
          · exact hxo
          · simp at hix; simp [hix]
    constructor
    · rw [hcur]
      exact otherUsers_map_preserve uid _ sess.cur hg
    · intro t ht hn
      rw [hcur] at ht
      have := replaceTask_new_mem ht hn
      rw [this, hown]
      exact ht0own
  | delete =>
    rw [dispatchAction, hact] at hd
    obtain ⟨t0, hres, hcur⟩ := delete_ok_shape hd
    obtain ⟨ht0mem, ht0own⟩ := resolve_ok_owner hres
    constructor
    · rw [hcur]
      apply otherUsers_filter_preserve
      intro t ht hfo
      have hne : t.task_id ≠ t0.task_id := ne_id_of_other hnd ht ht0mem hfo ht0own
      simp [hne]
    · intro t ht hn
      rw [hcur] at ht
      exact absurd (List.mem_filter.mp ht).1 hn
  | list =>
    rw [dispatchAction, hact] at hd
    have hcur := list_ok_shape hd
    rw [hcur]
    exact ⟨rfl, fun t ht hn => absurd ht hn⟩

/-- A task of a different user (user 2) that also matches "report". -/
def w4c : Task :=
  { task_id := 3, conversation_id := 9, created_by_user_id := 2,
    title := "Report of user two", created_at := 8 }

/-- C9, witness: a store holding one matching task each of two users;
resolution and the list query only see user 1's task, and user 1's delete
leaves user 2's task untouched. -/
theorem c9_ownership_witness :
    (∀ t, _resolve_single_task_by_query "report" 1 [w4a, w4c] = .ok t →
        t.created_by_user_id = 1)
    ∧ (∀ t, t ∈ list_selection { action := .delete, query := some "report" } 1 [w4a, w4c] →
        t.created_by_user_id = 1)
    ∧ (∀ v sess', manage_task { action := .delete, query := some "report" } 1 77 77
          { base := [w4a, w4c], cur := [w4a, w4c] } = (.ok v, sess') →
        otherUsersTasks 1 sess'.cur = otherUsersTasks 1 [w4a, w4c]
        ∧ ∀ t, t ∈ sess'.cur → t ∉ [w4a, w4c] → t.created_by_user_id = 1) :=
  c9_ownership { action := .delete, query := some "report" } "report" 1 77 77
    { base := [w4a, w4c], cur := [w4a, w4c] } (by decide)

/-- C7 (code bug): with a healthy store and a provider that issues a tool
call on all five exchanges, `generate_response` returns its turn-limit
string instead of a dict; `chat_service` then raises an `AttributeError`
from `llm_result.get("answer")`, the same failure recurs while the
persistence row is built inside the `finally` block, and that write is
rolled back — so zero `ChatMessage` rows are persisted for this inbound
message, not the exactly-one row the claim (and the spec's invariant)
requires, while the `AttributeError` propagates to the caller. -/
theorem c7_no_row_on_turn_limit :
    (chat_service "hello" 1 2 (.ok "ctx") alwaysToolProvider []
        { base := [], cur := [] } 0 true).rows = []
    ∧ (chat_service "hello" 1 2 (.ok "ctx") alwaysToolProvider []
        { base := [], cur := [] } 0 true).result = .error strGetMsg :=
  ⟨rfl, rfl⟩

end Synapse
